import Mathlib

/-!
Verification of the google-photos-backup transfer pipeline and OAuth token
lifecycle, shallowly embedded from the Rust sources (`src/main.rs`,
`src/drive.rs`, `src/auth.rs`).  Network and filesystem effects are made
explicit: every fallible external call is a field of an environment record,
and the per-file pipeline is a pure function of the file record and that
environment.
-/

namespace GPB

/-- Record `DriveFile` from `src/drive.rs`: the listing record consumed by the
pipeline.  `size` is the byte size as a decimal string, absent for Google
Workspace native files. -/
structure DriveFile where
  id : String
  name : String
  mime_type : String
  size : Option String
deriving Repr, DecidableEq

/-- Constant `WORKSPACE_MIMETYPES` from `src/drive.rs`. -/
def WORKSPACE_MIMETYPES : List String :=
  [ "application/vnd.google-apps.document"
  , "application/vnd.google-apps.spreadsheet"
  , "application/vnd.google-apps.presentation"
  , "application/vnd.google-apps.drawing"
  , "application/vnd.google-apps.form"
  , "application/vnd.google-apps.map"
  , "application/vnd.google-apps.site" ]

/-- Predicate `is_workspace_file` from `src/drive.rs`. -/
def is_workspace_file (f : DriveFile) : Bool :=
  WORKSPACE_MIMETYPES.contains f.mime_type

/-- Rust `str::parse::<u64>()` adapted to the strings the Drive API returns:
an optional leading `+` sign, then one or more ASCII digits, rejecting any
other character and any value exceeding `u64::MAX`. -/
def parseU64 (s : String) : Option Nat :=
  let body := match s.data with
    | '+' :: rest => rest
    | cs => cs
  if body.isEmpty then none
  else if body.all (fun c => c.isDigit) then
    let v := body.foldl (fun acc c => acc * 10 + (c.toNat - 48)) 0
    if v < 2 ^ 64 then some v else none
  else none

/-- The expected byte count of a file:
`file.size.as_deref().and_then(|s| s.parse::<u64>().ok())` in
`DriveClient::download` (`src/drive.rs`). -/
def sizeExpected (f : DriveFile) : Option Nat :=
  f.size.bind parseU64

/-- Environment of one `DriveClient::download` call: what the HTTP layer does.
`httpErr` models a failure of the initial `send()?.error_for_status()?`;
`chunks` are the byte lengths of the chunks `response.chunk()` delivers;
`streamErr` models `response.chunk()` returning an error after those chunks
(each chunk already delivered was written to the destination file). -/
structure DownloadEnv where
  httpErr : Bool
  chunks : List Nat
  streamErr : Bool
deriving Repr, DecidableEq

/-- Errors `DriveClient::download` can report. -/
inductive DownloadError where
  | httpError
  | streamError
  | incomplete (expected received : Nat)
deriving Repr, DecidableEq

instance : DecidableEq (Except DownloadError Unit)
  | .ok (), .ok () => isTrue rfl
  | .ok (), .error _ => isFalse (fun h => Except.noConfusion h)
  | .error _, .ok () => isFalse (fun h => Except.noConfusion h)
  | .error a, .error b =>
      if h : a = b then isTrue (by rw [h])
      else isFalse (by intro hh; injection hh with h2; exact h h2)

/-- Result of one download attempt: the outcome of the call together with the
state of the destination path when the call returns (`none` = no file on
disk, `some n` = a file holding `n` bytes).  The destination is assumed
absent before the call, matching a fresh temp-dir path. -/
structure DownloadResult where
  res : Except DownloadError Unit
  dest : Option Nat
deriving Repr, DecidableEq

/-- Function `DriveClient::download` from `src/drive.rs` (lines 134-170).  The HTTP
request either fails up front (no file created) or streams chunks into the
destination file; after a clean end of stream the byte count is checked
against the reported size when that size parses as `u64`, removing the file
and failing on mismatch. -/
def download (f : DriveFile) (env : DownloadEnv) : DownloadResult :=
  if env.httpErr then
    { res := .error .httpError, dest := none }
  else
    let written := env.chunks.sum
    if env.streamErr then
      { res := .error .streamError, dest := some written }
    else
      match sizeExpected f with
      | some expected =>
          if written ≠ expected then
            { res := .error (.incomplete expected written), dest := none }
          else
            { res := .ok (), dest := some written }
      | none => { res := .ok (), dest := some written }

/-- Per-file transfer outcome, as in the spec's `TransferOutcome`. -/
inductive TransferOutcome where
  | Uploaded
  | DownloadFailed
  | UploadFailed
  | UploadedButNotDeleted
deriving Repr, DecidableEq

/-- Environment of one iteration of the per-file loop in `main`
(`src/main.rs` lines 87-147): the download behaviour and whether the S3
upload and the Drive delete calls succeed. -/
structure FileEnv where
  dl : DownloadEnv
  uploadOk : Bool
  deleteOk : Bool
deriving Repr, DecidableEq

/-- Observable result of one iteration of the per-file loop: the outcome,
which external calls were made (`uploadInvoked`; `deleteTarget` is the file
id passed to `DriveClient::delete` when delete was invoked), whether the
upload step returned success, the S3 key used, and the state of the local
temporary file when the iteration completes. -/
structure FileResult where
  outcome : TransferOutcome
  uploadInvoked : Bool
  uploadSucceeded : Bool
  deleteTarget : Option String
  s3_key : String
  localFile : Option Nat
deriving Repr, DecidableEq

/-- The filename sanitization in `main` (`src/main.rs` lines 92-96):
replace `/`, `\` and the null character by `_`, leaving every other
character unchanged. -/
def sanitize (name : String) : String :=
  ⟨name.data.map (fun c => if c = '/' ∨ c = '\\' ∨ c = Char.ofNat 0 then '_' else c)⟩

/-- One iteration of the per-file loop in `main` (`src/main.rs` lines
87-147), for a given date string `dateStr` (the `%Y-%m-%d` run date used as
the key namespace).  Mirrors the Rust control flow: download, on error
`continue` (no cleanup in `main` on this branch); upload, on error remove
the temp file and `continue`; delete only after a successful upload, a
delete failure being a warning; finally remove the temp file. -/
def processFile (dateStr : String) (f : DriveFile) (env : FileEnv) : FileResult :=
  match (download f env.dl).res with
  | .error _ =>
      { outcome := .DownloadFailed
        uploadInvoked := false
        uploadSucceeded := false
        deleteTarget := none
        s3_key := dateStr ++ "/" ++ sanitize f.name
        localFile := (download f env.dl).dest }
  | .ok () =>
      if env.uploadOk then
        if env.deleteOk then
          { outcome := .Uploaded
            uploadInvoked := true
            uploadSucceeded := true
            deleteTarget := some f.id
            s3_key := dateStr ++ "/" ++ sanitize f.name
            localFile := none }
        else
          { outcome := .UploadedButNotDeleted
            uploadInvoked := true
            uploadSucceeded := true
            deleteTarget := some f.id
            s3_key := dateStr ++ "/" ++ sanitize f.name
            localFile := none }
      else
        { outcome := .UploadFailed
          uploadInvoked := true
          uploadSucceeded := false
          deleteTarget := none
          s3_key := dateStr ++ "/" ++ sanitize f.name
          localFile := none }

/-- The run counters of `main` (`src/main.rs` line 66):
`(uploaded, failed, not_deleted)`. -/
structure Counters where
  uploaded : Nat
  failed : Nat
  not_deleted : Nat
deriving Repr, DecidableEq

/-- The counter updates of one loop iteration, as performed in
`src/main.rs`: a download or upload error increments `failed`; a completed
file increments `uploaded`, and additionally `not_deleted` when the Drive
delete failed. -/
def stepCounters (c : Counters) (o : TransferOutcome) : Counters :=
  match o with
  | .DownloadFailed => { c with failed := c.failed + 1 }
  | .UploadFailed => { c with failed := c.failed + 1 }
  | .Uploaded => { c with uploaded := c.uploaded + 1 }
  | .UploadedButNotDeleted =>
      { c with uploaded := c.uploaded + 1, not_deleted := c.not_deleted + 1 }

/-- The whole per-file loop of `main`: processes the files in listing order,
threading the counters, and collects every per-file result. -/
def runFrom (dateStr : String) (c : Counters) :
    List (DriveFile × FileEnv) → Counters × List FileResult
  | [] => (c, [])
  | (f, env) :: rest =>
      let r := processFile dateStr f env
      let (c', rs) := runFrom dateStr (stepCounters c r.outcome) rest
      (c', r :: rs)

/-- The run with the counters starting at zero, as in `main`. -/
def run (dateStr : String) (input : List (DriveFile × FileEnv)) :
    Counters × List FileResult :=
  runFrom dateStr { uploaded := 0, failed := 0, not_deleted := 0 } input

/-! ## Token lifecycle (`src/auth.rs`)

Wall-clock time is modelled as `Int` seconds; `chrono::Duration::seconds`
arithmetic uses only integral seconds, so nothing finer is needed. -/

/-- Structure `Token` from `src/auth.rs`: the persisted credential. -/
structure Token where
  access_token : String
  refresh_token : String
  expiry : Int
deriving Repr, DecidableEq

/-- Method `Token::is_expired` from `src/auth.rs` (lines 33-35):
`Utc::now() >= self.expiry - Duration::seconds(60)`, with the current time
passed explicitly. -/
def Token.is_expired (t : Token) (now : Int) : Bool :=
  now ≥ t.expiry - 60

/-- A JSON value as far as `parse_token_response` inspects one: a string, an
integer, or anything else (a Rust `as_str()` or `as_i64()` on the latter
returns `None`). -/
inductive JVal where
  | str (s : String)
  | int (n : Int)
  | other
deriving Repr, DecidableEq

/-- Method `serde_json::Value::as_str` on an optional field (a missing field
indexes to `Null`, whose `as_str()` is `None`). -/
def asStr : Option JVal → Option String
  | some (.str s) => some s
  | _ => none

/-- Method `serde_json::Value::as_i64` on an optional field. -/
def asI64 : Option JVal → Option Int
  | some (.int n) => some n
  | _ => none

/-- The token-endpoint response, restricted to the fields
`parse_token_response` consumes.  Each field is `none` when absent from the
JSON object. -/
structure TokenResponse where
  error : Option JVal
  access_token : Option JVal
  refresh_token : Option JVal
  expires_in : Option JVal
deriving Repr, DecidableEq

/-- Errors `parse_token_response` can report. -/
inductive TokenError where
  | providerError (code : String)
  | missingAccessToken
  | missingRefreshToken
deriving Repr, DecidableEq

instance : DecidableEq (Except TokenError Token)
  | .ok a, .ok b =>
      if h : a = b then isTrue (by rw [h])
      else isFalse (by intro hh; injection hh with h2; exact h h2)
  | .ok _, .error _ => isFalse (fun h => Except.noConfusion h)
  | .error _, .ok _ => isFalse (fun h => Except.noConfusion h)
  | .error a, .error b =>
      if h : a = b then isTrue (by rw [h])
      else isFalse (by intro hh; injection hh with h2; exact h h2)

/-- Function `parse_token_response` from `src/auth.rs` (lines 178-198),
with the current time passed explicitly.  A response carrying an `error`
field fails with only the short error code; `access_token` is mandatory;
`refresh_token` falls back to `existing_refresh` and is mandatory only when
neither is available; `expires_in` defaults to 3600 and the absolute expiry
is `now + expires_in`. -/
def parse_token_response (now : Int) (resp : TokenResponse)
    (existing_refresh : Option String) : Except TokenError Token :=
  match resp.error with
  | some e => .error (.providerError ((asStr (some e)).getD "unknown"))
  | none =>
    match asStr resp.access_token with
    | none => .error .missingAccessToken
    | some access_token =>
      match (asStr resp.refresh_token).orElse (fun _ => existing_refresh) with
      | none => .error .missingRefreshToken
      | some refresh_token =>
        let expires_in := (asI64 resp.expires_in).getD 3600
        .ok { access_token := access_token
              refresh_token := refresh_token
              expiry := now + expires_in }

/-! ## Browser flow redirect validation (`src/auth.rs`, `browser_flow`) -/

/-- Errors the redirect handling in `browser_flow` can report. -/
inductive AuthError where
  | csrfMismatch
  | missingCode
deriving Repr, DecidableEq

/-- Lookup in the `HashMap` built by `parsed_url.query_pairs().collect()`:
with duplicate keys the later pair overwrites the earlier, so the lookup
returns the last occurrence. -/
def lookupLast (params : List (String × String)) (key : String) : Option String :=
  (params.reverse.find? (fun p => p.1 = key)).map (fun p => p.2)

/-- The redirect-callback validation of `browser_flow` (`src/auth.rs` lines
119-133): read the `state` query parameter (absent defaults to the empty
string, via `unwrap_or_default`), reject with a CSRF-mismatch error unless
it equals the state generated for this attempt, then extract the
authorization `code`, failing when absent. -/
def validateRedirect (state : String) (params : List (String × String)) :
    Except AuthError String :=
  if (lookupLast params "state").getD "" ≠ state then .error .csrfMismatch
  else
    match lookupLast params "code" with
    | some c => .ok c
    | none => .error .missingCode

/-- The tail of `browser_flow` after the redirect is captured:
validate the redirect, then perform `exchange_code` only when validation
succeeded.  The boolean records whether the code exchange was performed. -/
def browserFlowAfterRedirect (state : String) (params : List (String × String))
    (exchange : String → Except TokenError Token) :
    Except (AuthError ⊕ TokenError) Token × Bool :=
  match validateRedirect state params with
  | .error e => (.error (.inl e), false)
  | .ok code =>
      match exchange code with
      | .error e => (.error (.inr e), true)
      | .ok t => (.ok t, true)

/-! ## Helper lemmas -/

/-- Characterization of a loop iteration whose download failed. -/
lemma processFile_dl_error (dateStr : String) (f : DriveFile) (env : FileEnv)
    (e : DownloadError) (h : (download f env.dl).res = .error e) :
    processFile dateStr f env =
      { outcome := .DownloadFailed, uploadInvoked := false, uploadSucceeded := false
        deleteTarget := none, s3_key := dateStr ++ "/" ++ sanitize f.name
        localFile := (download f env.dl).dest } := by
  unfold processFile
  rw [h]

/-- Characterization of a loop iteration whose download succeeded. -/
lemma processFile_dl_ok (dateStr : String) (f : DriveFile) (env : FileEnv)
    (h : (download f env.dl).res = .ok ()) :
    processFile dateStr f env =
      if env.uploadOk then
        if env.deleteOk then
          { outcome := .Uploaded, uploadInvoked := true, uploadSucceeded := true
            deleteTarget := some f.id, s3_key := dateStr ++ "/" ++ sanitize f.name
            localFile := none }
        else
          { outcome := .UploadedButNotDeleted, uploadInvoked := true, uploadSucceeded := true
            deleteTarget := some f.id, s3_key := dateStr ++ "/" ++ sanitize f.name
            localFile := none }
      else
        { outcome := .UploadFailed, uploadInvoked := true, uploadSucceeded := false
          deleteTarget := none, s3_key := dateStr ++ "/" ++ sanitize f.name
          localFile := none } := by
  unfold processFile
  rw [h]

/-- The per-file results of a run are the files processed in listing order,
independent of the counter state threaded through. -/
lemma runFrom_snd (dateStr : String) (c : Counters)
    (input : List (DriveFile × FileEnv)) :
    (runFrom dateStr c input).2 =
      input.map (fun p => processFile dateStr p.1 p.2) := by
  induction input generalizing c with
  | nil => rfl
  | cons p rest ih =>
      obtain ⟨f, env⟩ := p
      simp only [runFrom, List.map_cons]
      rw [← ih (stepCounters c (processFile dateStr f env).outcome)]

/-- The final counters of a run are a left fold of the per-file outcomes. -/
lemma runFrom_fst (dateStr : String) (c : Counters)
    (input : List (DriveFile × FileEnv)) :
    (runFrom dateStr c input).1 =
      input.foldl
        (fun acc p => stepCounters acc (processFile dateStr p.1 p.2).outcome) c := by
  induction input generalizing c with
  | nil => rfl
  | cons p rest ih =>
      obtain ⟨f, env⟩ := p
      simp only [runFrom, List.foldl_cons]
      rw [← ih (stepCounters c (processFile dateStr f env).outcome)]

/-! ## Claims -/

/-- C1: For every file in every run of the transfer pipeline, the
remote-store delete operation is invoked for that file if and only if the
upload step for that file returned success; no file is ever deleted after a
failed or skipped upload. -/
theorem delete_invoked_iff_upload_succeeded
    (dateStr : String) (input : List (DriveFile × FileEnv)) :
    ∀ r ∈ (run dateStr input).2,
      r.deleteTarget.isSome = true ↔ r.uploadSucceeded = true := by
  intro r hr
  rw [run, runFrom_snd, List.mem_map] at hr
  obtain ⟨⟨f, env⟩, _, rfl⟩ := hr
  rcases h : (download f env.dl).res with e | v
  · rw [processFile_dl_error dateStr f env e h]
    simp
  · rw [processFile_dl_ok dateStr f env h]
    rcases hu : env.uploadOk with _ | _
    · simp
    · rcases hd : env.deleteOk with _ | _ <;> simp

/-- Witness for C1 at a concrete two-file run (one full success, one upload
failure). -/
theorem delete_invoked_iff_upload_succeeded_witness :
    (processFile "2026-10-12"
        { id := "idA", name := "a.jpg", mime_type := "image/jpeg", size := some "3" }
        { dl := { httpErr := false, chunks := [3], streamErr := false }
          uploadOk := true, deleteOk := true }).deleteTarget.isSome = true ↔
    (processFile "2026-10-12"
        { id := "idA", name := "a.jpg", mime_type := "image/jpeg", size := some "3" }
        { dl := { httpErr := false, chunks := [3], streamErr := false }
          uploadOk := true, deleteOk := true }).uploadSucceeded = true :=
  delete_invoked_iff_upload_succeeded "2026-10-12"
    [ ({ id := "idA", name := "a.jpg", mime_type := "image/jpeg", size := some "3" },
       { dl := { httpErr := false, chunks := [3], streamErr := false }
         uploadOk := true, deleteOk := true })
    , ({ id := "idB", name := "b.jpg", mime_type := "image/jpeg", size := some "5" },
       { dl := { httpErr := false, chunks := [5], streamErr := false }
         uploadOk := false, deleteOk := true }) ]
    _ (by rw [run, runFrom_snd]; simp)

/-- C2: For a file whose reported size parses to N: a download delivering
exactly N bytes succeeds and the file proceeds to upload; a download
delivering a different byte count fails with the incomplete-download error,
the file is marked DownloadFailed, no upload is attempted, and the partial
local file is removed (no file remains at the destination path). -/
theorem download_size_verification
    (dateStr : String) (f : DriveFile) (env : FileEnv) (s : String) (N : Nat)
    (hs : f.size = some s) (hp : parseU64 s = some N)
    (hhttp : env.dl.httpErr = false) (hstream : env.dl.streamErr = false) :
    (env.dl.chunks.sum = N →
       (download f env.dl).res = .ok () ∧
       (processFile dateStr f env).uploadInvoked = true)
  ∧ (env.dl.chunks.sum ≠ N →
       (download f env.dl).res = .error (.incomplete N env.dl.chunks.sum)
     ∧ (download f env.dl).dest = none
     ∧ (processFile dateStr f env).outcome = .DownloadFailed
     ∧ (processFile dateStr f env).uploadInvoked = false
     ∧ (processFile dateStr f env).localFile = none) := by
  have hexp : sizeExpected f = some N := by rw [sizeExpected, hs, Option.bind]; exact hp
  constructor
  · intro hsum
    have hres : (download f env.dl).res = .ok () := by
      rw [download, hhttp, hexp]
      simp [hstream, hsum]
    refine ⟨hres, ?_⟩
    rw [processFile_dl_ok dateStr f env hres]
    rcases env.uploadOk with _ | _ <;> rcases env.deleteOk with _ | _ <;> simp
  · intro hsum
    have hdl : download f env.dl =
        { res := .error (.incomplete N env.dl.chunks.sum), dest := none } := by
      rw [download, hhttp, hexp]
      simp [hstream, hsum]
    have hres : (download f env.dl).res = .error (.incomplete N env.dl.chunks.sum) := by
      rw [hdl]
    refine ⟨hres, by rw [hdl], ?_⟩
    rw [processFile_dl_error dateStr f env _ hres, hdl]
    exact ⟨rfl, rfl, rfl⟩

/-- Witness for C2: a 3-byte file downloaded completely, and the same file
truncated to 2 bytes. -/
theorem download_size_verification_witness :
    ((([2, 1] : List Nat).sum = 3 →
       (download
          { id := "idA", name := "a.jpg", mime_type := "image/jpeg", size := some "3" }
          { httpErr := false, chunks := [2, 1], streamErr := false }).res = .ok () ∧
       (processFile "2026-10-12"
          { id := "idA", name := "a.jpg", mime_type := "image/jpeg", size := some "3" }
          { dl := { httpErr := false, chunks := [2, 1], streamErr := false }
            uploadOk := true, deleteOk := true }).uploadInvoked = true))
  ∧ (([2] : List Nat).sum ≠ 3 →
       (download
          { id := "idA", name := "a.jpg", mime_type := "image/jpeg", size := some "3" }
          { httpErr := false, chunks := [2], streamErr := false }).res =
            .error (.incomplete 3 ([2] : List Nat).sum)
     ∧ (download
          { id := "idA", name := "a.jpg", mime_type := "image/jpeg", size := some "3" }
          { httpErr := false, chunks := [2], streamErr := false }).dest = none
     ∧ (processFile "2026-10-12"
          { id := "idA", name := "a.jpg", mime_type := "image/jpeg", size := some "3" }
          { dl := { httpErr := false, chunks := [2], streamErr := false }
            uploadOk := true, deleteOk := true }).outcome = .DownloadFailed
     ∧ (processFile "2026-10-12"
          { id := "idA", name := "a.jpg", mime_type := "image/jpeg", size := some "3" }
          { dl := { httpErr := false, chunks := [2], streamErr := false }
            uploadOk := true, deleteOk := true }).uploadInvoked = false
     ∧ (processFile "2026-10-12"
          { id := "idA", name := "a.jpg", mime_type := "image/jpeg", size := some "3" }
          { dl := { httpErr := false, chunks := [2], streamErr := false }
            uploadOk := true, deleteOk := true }).localFile = none) :=
  ⟨(download_size_verification "2026-10-12"
      { id := "idA", name := "a.jpg", mime_type := "image/jpeg", size := some "3" }
      { dl := { httpErr := false, chunks := [2, 1], streamErr := false }
        uploadOk := true, deleteOk := true }
      "3" 3 rfl (by decide) rfl rfl).1
  , (download_size_verification "2026-10-12"
      { id := "idA", name := "a.jpg", mime_type := "image/jpeg", size := some "3" }
      { dl := { httpErr := false, chunks := [2], streamErr := false }
        uploadOk := true, deleteOk := true }
      "3" 3 rfl (by decide) rfl rfl).2⟩

/-- C3 counterexample: a download that dies mid-stream (5 of 10 reported
bytes received, then a stream error) takes the download-failure branch of
the loop, yet the 5-byte partial file is still at the destination path when
the iteration completes — `main` does not remove it on this branch, and
`DriveClient::download` removes the file only on a byte-count mismatch, not
on a stream error. -/
theorem cleanup_missing_on_stream_error :
    (processFile "2026-10-12"
       { id := "idA", name := "a.jpg", mime_type := "image/jpeg", size := some "10" }
       { dl := { httpErr := false, chunks := [5], streamErr := true }
         uploadOk := true, deleteOk := true }).outcome = .DownloadFailed
  ∧ (processFile "2026-10-12"
       { id := "idA", name := "a.jpg", mime_type := "image/jpeg", size := some "10" }
       { dl := { httpErr := false, chunks := [5], streamErr := true }
         uploadOk := true, deleteOk := true }).localFile = some 5 := by
  constructor <;> rfl

/-- Unfolded form of `download` (definitional). -/
lemma download_unfold (f : DriveFile) (env : DownloadEnv) :
    download f env =
      if env.httpErr then { res := .error .httpError, dest := none }
      else if env.streamErr then
        { res := .error .streamError, dest := some env.chunks.sum }
      else
        match sizeExpected f with
        | some expected =>
            if env.chunks.sum ≠ expected then
              { res := .error (.incomplete expected env.chunks.sum), dest := none }
            else { res := .ok (), dest := some env.chunks.sum }
        | none => { res := .ok (), dest := some env.chunks.sum } := rfl

/-- C3 (amended): the local temporary copy is gone when the iteration
completes on the upload-failure branch and on both full-success branches;
on the download-failure branch it is gone exactly when the failure was not
a mid-stream error (an up-front HTTP error creates no file, a byte-count
mismatch removes the partial file, but a mid-stream error leaves the
partial bytes at the destination path until the temp directory itself is
dropped at process exit). -/
theorem local_cleanup_characterization
    (dateStr : String) (f : DriveFile) (env : FileEnv) :
    ((processFile dateStr f env).outcome ≠ .DownloadFailed →
       (processFile dateStr f env).localFile = none)
  ∧ ((processFile dateStr f env).outcome = .DownloadFailed →
       (processFile dateStr f env).localFile =
         if env.dl.httpErr then none
         else if env.dl.streamErr then some env.dl.chunks.sum
         else none) := by
  constructor
  · intro hne
    rcases h : (download f env.dl).res with e | v
    · rw [processFile_dl_error dateStr f env e h] at hne
      simp at hne
    · rw [processFile_dl_ok dateStr f env h]
      rcases hu : env.uploadOk with _ | _ <;> rcases hd : env.deleteOk with _ | _ <;>
        simp [hu, hd]
  · intro hdf
    rcases h : (download f env.dl).res with e | v
    · rw [processFile_dl_error dateStr f env e h]
      show (download f env.dl).dest = _
      rw [download_unfold] at h ⊢
      rcases hh : env.dl.httpErr with _ | _ <;>
        rcases hs : env.dl.streamErr with _ | _ <;>
        simp [hh, hs] at h ⊢
      all_goals
        rcases hse : sizeExpected f with _ | expected <;> simp [hse] at h ⊢
      all_goals
        rcases hsum : decide (env.dl.chunks.sum = expected) with _ | _ <;>
          simp at hsum <;> simp [hsum] at h ⊢
    · rw [processFile_dl_ok dateStr f env h] at hdf
      rcases hu : env.uploadOk with _ | _ <;> rcases hd : env.deleteOk with _ | _ <;>
        simp [hu, hd] at hdf

/-- Witness for C3 (amended) at an upload failure and at a byte-count
mismatch. -/
theorem local_cleanup_characterization_witness :
    (processFile "2026-10-12"
       { id := "idA", name := "a.jpg", mime_type := "image/jpeg", size := some "3" }
       { dl := { httpErr := false, chunks := [3], streamErr := false }
         uploadOk := false, deleteOk := true }).localFile = none :=
  (local_cleanup_characterization "2026-10-12"
     { id := "idA", name := "a.jpg", mime_type := "image/jpeg", size := some "3" }
     { dl := { httpErr := false, chunks := [3], streamErr := false }
       uploadOk := false, deleteOk := true }).1 (by decide)

/-- C4: when a file downloads cleanly but its upload step fails, its
outcome is upload-failed, its source copy is not deleted from Drive, the
failed counter is incremented by exactly one, and every following file is
still processed in listing order. -/
theorem upload_failure_isolated
    (dateStr : String) (f : DriveFile) (env : FileEnv)
    (rest : List (DriveFile × FileEnv)) (c : Counters)
    (hdl : (download f env.dl).res = .ok ()) (hup : env.uploadOk = false) :
    (processFile dateStr f env).outcome = .UploadFailed
  ∧ (processFile dateStr f env).deleteTarget = none
  ∧ stepCounters c (processFile dateStr f env).outcome =
      { c with failed := c.failed + 1 }
  ∧ (run dateStr ((f, env) :: rest)).2 =
      processFile dateStr f env :: rest.map (fun p => processFile dateStr p.1 p.2) := by
  have hpf := processFile_dl_ok dateStr f env hdl
  rw [hup] at hpf
  simp only [Bool.false_eq_true, if_false] at hpf
  refine ⟨by rw [hpf], by rw [hpf], by rw [hpf]; rfl, ?_⟩
  rw [run, runFrom_snd]
  simp

/-- Witness for C4: a clean 3-byte download whose upload fails, followed by
one more file. -/
theorem upload_failure_isolated_witness :
    (processFile "2026-10-12"
       { id := "idA", name := "a.jpg", mime_type := "image/jpeg", size := some "3" }
       { dl := { httpErr := false, chunks := [3], streamErr := false }
         uploadOk := false, deleteOk := true }).outcome = .UploadFailed
  ∧ (processFile "2026-10-12"
       { id := "idA", name := "a.jpg", mime_type := "image/jpeg", size := some "3" }
       { dl := { httpErr := false, chunks := [3], streamErr := false }
         uploadOk := false, deleteOk := true }).deleteTarget = none
  ∧ stepCounters { uploaded := 0, failed := 0, not_deleted := 0 }
      (processFile "2026-10-12"
        { id := "idA", name := "a.jpg", mime_type := "image/jpeg", size := some "3" }
        { dl := { httpErr := false, chunks := [3], streamErr := false }
          uploadOk := false, deleteOk := true }).outcome =
      { uploaded := 0, failed := 1, not_deleted := 0 }
  ∧ (run "2026-10-12"
       [ ({ id := "idA", name := "a.jpg", mime_type := "image/jpeg", size := some "3" },
          { dl := { httpErr := false, chunks := [3], streamErr := false }
            uploadOk := false, deleteOk := true })
       , ({ id := "idB", name := "b.jpg", mime_type := "image/jpeg", size := some "5" },
          { dl := { httpErr := false, chunks := [5], streamErr := false }
            uploadOk := true, deleteOk := true }) ]).2 =
      processFile "2026-10-12"
        { id := "idA", name := "a.jpg", mime_type := "image/jpeg", size := some "3" }
        { dl := { httpErr := false, chunks := [3], streamErr := false }
          uploadOk := false, deleteOk := true }
      :: [ ({ id := "idB", name := "b.jpg", mime_type := "image/jpeg", size := some "5" },
            { dl := { httpErr := false, chunks := [5], streamErr := false }
              uploadOk := true, deleteOk := true }) ].map
           (fun p => processFile "2026-10-12" p.1 p.2) :=
  upload_failure_isolated "2026-10-12"
    { id := "idA", name := "a.jpg", mime_type := "image/jpeg", size := some "3" }
    { dl := { httpErr := false, chunks := [3], streamErr := false }
      uploadOk := false, deleteOk := true }
    [ ({ id := "idB", name := "b.jpg", mime_type := "image/jpeg", size := some "5" },
       { dl := { httpErr := false, chunks := [5], streamErr := false }
         uploadOk := true, deleteOk := true }) ]
    { uploaded := 0, failed := 0, not_deleted := 0 }
    (by decide) rfl

/-- The outcomes a run produces, in listing order. -/
def runOutcomes (dateStr : String) (input : List (DriveFile × FileEnv)) :
    List TransferOutcome :=
  input.map (fun p => (processFile dateStr p.1 p.2).outcome)

/-- A run's counters are the fold of `stepCounters` over its outcomes. -/
lemma run_fst_eq_foldl (dateStr : String) (input : List (DriveFile × FileEnv)) :
    (run dateStr input).1 =
      (runOutcomes dateStr input).foldl stepCounters
        { uploaded := 0, failed := 0, not_deleted := 0 } := by
  rw [run, runFrom_fst, runOutcomes, List.foldl_map]

/-- Fold characterization of the uploaded counter. -/
lemma foldl_step_uploaded (os : List TransferOutcome) (c : Counters) :
    (os.foldl stepCounters c).uploaded =
      c.uploaded + os.countP
        (fun o => o == .Uploaded || o == .UploadedButNotDeleted) := by
  induction os generalizing c with
  | nil => simp
  | cons o rest ih =>
      rw [List.foldl_cons, ih, List.countP_cons]
      cases o <;> simp [stepCounters] <;> omega

/-- Fold characterization of the failed counter. -/
lemma foldl_step_failed (os : List TransferOutcome) (c : Counters) :
    (os.foldl stepCounters c).failed =
      c.failed + os.countP
        (fun o => o == .DownloadFailed || o == .UploadFailed) := by
  induction os generalizing c with
  | nil => simp
  | cons o rest ih =>
      rw [List.foldl_cons, ih, List.countP_cons]
      cases o <;> simp [stepCounters] <;> omega

/-- Fold characterization of the not-deleted counter. -/
lemma foldl_step_not_deleted (os : List TransferOutcome) (c : Counters) :
    (os.foldl stepCounters c).not_deleted =
      c.not_deleted + os.countP (fun o => o == .UploadedButNotDeleted) := by
  induction os generalizing c with
  | nil => simp
  | cons o rest ih =>
      rw [List.foldl_cons, ih, List.countP_cons]
      cases o <;> (simp [stepCounters]; try omega)

/-- Every outcome is counted in exactly one of the two classes. -/
lemma countP_outcome_split (os : List TransferOutcome) :
    os.countP (fun o => o == .Uploaded || o == .UploadedButNotDeleted)
  + os.countP (fun o => o == .DownloadFailed || o == .UploadFailed)
  = os.length := by
  induction os with
  | nil => rfl
  | cons o rest ih =>
      rw [List.countP_cons, List.countP_cons, List.length_cons]
      cases o <;> (simp; omega)

/-- C5: run-summary accounting.  The uploaded counter counts exactly the
files whose outcome is a transfer success (including delete-failed), the
failed counter counts exactly the download and upload failures, and the
not-deleted counter counts exactly the delete-failed files — so each
transferable file increments exactly one of uploaded/failed, a
delete-failed file is counted in uploaded and not-deleted but never in
failed, at run end uploaded + failed equals the number of transferable
files, not-deleted never exceeds uploaded, and the counters only ever grow
as the run is extended. -/
theorem run_summary_accounting
    (dateStr : String) (input : List (DriveFile × FileEnv)) :
    (run dateStr input).1.uploaded =
      (run dateStr input).2.countP
        (fun r => r.outcome == .Uploaded || r.outcome == .UploadedButNotDeleted)
  ∧ (run dateStr input).1.failed =
      (run dateStr input).2.countP
        (fun r => r.outcome == .DownloadFailed || r.outcome == .UploadFailed)
  ∧ (run dateStr input).1.not_deleted =
      (run dateStr input).2.countP (fun r => r.outcome == .UploadedButNotDeleted)
  ∧ (run dateStr input).1.uploaded + (run dateStr input).1.failed = input.length
  ∧ (run dateStr input).1.not_deleted ≤ (run dateStr input).1.uploaded
  ∧ ∀ suf : List (DriveFile × FileEnv),
      (run dateStr input).1.uploaded ≤ (run dateStr (input ++ suf)).1.uploaded
    ∧ (run dateStr input).1.failed ≤ (run dateStr (input ++ suf)).1.failed
    ∧ (run dateStr input).1.not_deleted ≤
        (run dateStr (input ++ suf)).1.not_deleted := by
  have hsnd : (run dateStr input).2 =
      input.map (fun p => processFile dateStr p.1 p.2) := by
    rw [run, runFrom_snd]
  have hcount : ∀ q : TransferOutcome → Bool,
      (run dateStr input).2.countP (fun r => q r.outcome) =
        (runOutcomes dateStr input).countP q := by
    intro q
    rw [hsnd, runOutcomes, List.countP_map, List.countP_map]
    rfl
  have hu := foldl_step_uploaded (runOutcomes dateStr input)
      { uploaded := 0, failed := 0, not_deleted := 0 }
  have hf := foldl_step_failed (runOutcomes dateStr input)
      { uploaded := 0, failed := 0, not_deleted := 0 }
  have hn := foldl_step_not_deleted (runOutcomes dateStr input)
      { uploaded := 0, failed := 0, not_deleted := 0 }
  have z1 : ({ uploaded := 0, failed := 0, not_deleted := 0 } : Counters).uploaded = 0 := rfl
  have z2 : ({ uploaded := 0, failed := 0, not_deleted := 0 } : Counters).failed = 0 := rfl
  have z3 : ({ uploaded := 0, failed := 0, not_deleted := 0 } : Counters).not_deleted = 0 := rfl
  rw [← run_fst_eq_foldl, z1] at hu
  rw [← run_fst_eq_foldl, z2] at hf
  rw [← run_fst_eq_foldl, z3] at hn
  refine ⟨?_, ?_, ?_, ?_, ?_, ?_⟩
  · rw [hu, hcount (fun o => o == .Uploaded || o == .UploadedButNotDeleted)]
    omega
  · rw [hf, hcount (fun o => o == .DownloadFailed || o == .UploadFailed)]
    omega
  · rw [hn, hcount (fun o => o == .UploadedButNotDeleted)]
    omega
  · rw [hu, hf]
    have := countP_outcome_split (runOutcomes dateStr input)
    have hlen : (runOutcomes dateStr input).length = input.length := by
      rw [runOutcomes, List.length_map]
    omega
  · rw [hn, hu]
    have hmono : (runOutcomes dateStr input).countP
          (fun o => o == .UploadedButNotDeleted) ≤
        (runOutcomes dateStr input).countP
          (fun o => o == .Uploaded || o == .UploadedButNotDeleted) := by
      apply List.countP_mono_left
      intro o _ ho
      rw [Bool.or_eq_true]
      exact Or.inr ho
    omega
  · intro suf
    have husuf := foldl_step_uploaded (runOutcomes dateStr (input ++ suf))
        { uploaded := 0, failed := 0, not_deleted := 0 }
    have hfsuf := foldl_step_failed (runOutcomes dateStr (input ++ suf))
        { uploaded := 0, failed := 0, not_deleted := 0 }
    have hnsuf := foldl_step_not_deleted (runOutcomes dateStr (input ++ suf))
        { uploaded := 0, failed := 0, not_deleted := 0 }
    rw [← run_fst_eq_foldl, z1] at husuf
    rw [← run_fst_eq_foldl, z2] at hfsuf
    rw [← run_fst_eq_foldl, z3] at hnsuf
    have happ : runOutcomes dateStr (input ++ suf) =
        runOutcomes dateStr input ++ runOutcomes dateStr suf := by
      rw [runOutcomes, runOutcomes, runOutcomes, List.map_append]
    rw [happ, List.countP_append] at husuf hfsuf hnsuf
    omega

/-- C6: during the browser authentication flow, any redirect whose returned
state query parameter differs from the generated state token — including
the empty string, and an absent parameter when the generated token is
nonempty (the generated token is a UUID, never empty) — fails with the
CSRF-mismatch error and the authorization-code exchange is never
performed. -/
theorem csrf_state_mismatch_rejected
    (state : String) (params : List (String × String))
    (exchange : String → Except TokenError Token) :
    ((lookupLast params "state").getD "" ≠ state →
       browserFlowAfterRedirect state params exchange =
         (.error (.inl .csrfMismatch), false))
  ∧ (lookupLast params "state" = none → state ≠ "" →
       browserFlowAfterRedirect state params exchange =
         (.error (.inl .csrfMismatch), false)) := by
  have hmain : (lookupLast params "state").getD "" ≠ state →
      browserFlowAfterRedirect state params exchange =
        (.error (.inl .csrfMismatch), false) := by
    intro hne
    unfold browserFlowAfterRedirect validateRedirect
    rw [if_pos hne]
  refine ⟨hmain, ?_⟩
  intro habs hne
  apply hmain
  rw [habs]
  exact fun h => hne h.symm

/-- Witness for C6: a redirect carrying a wrong state value. -/
theorem csrf_state_mismatch_rejected_witness :
    browserFlowAfterRedirect "f47ac10b-58cc-4372-a567-0e02b2c3d479"
        [("state", "evil"), ("code", "abc")]
        (fun c => .ok { access_token := c, refresh_token := "r", expiry := 0 }) =
      (.error (.inl .csrfMismatch), false) :=
  (csrf_state_mismatch_rejected "f47ac10b-58cc-4372-a567-0e02b2c3d479"
     [("state", "evil"), ("code", "abc")]
     (fun c => .ok { access_token := c, refresh_token := "r", expiry := 0 })).1
    (by decide)

/-- C7: a token-refresh response omitting `refresh_token` carries the
previously stored refresh token into the returned credential; when no
previous refresh token exists either, parsing fails with the
missing-token-field error. -/
theorem refresh_token_fallback
    (now : Int) (resp : TokenResponse) (a : String)
    (herr : resp.error = none)
    (hacc : asStr resp.access_token = some a)
    (hnorf : asStr resp.refresh_token = none) :
    (∀ prev : String,
       parse_token_response now resp (some prev) =
         .ok { access_token := a, refresh_token := prev
               expiry := now + (asI64 resp.expires_in).getD 3600 })
  ∧ parse_token_response now resp none = .error .missingRefreshToken := by
  constructor
  · intro prev
    unfold parse_token_response
    rw [herr, hacc, hnorf]
    rfl
  · unfold parse_token_response
    rw [herr, hacc, hnorf]
    rfl

/-- Witness for C7: a refresh response with only an access token, parsed
once with and once without a previously stored refresh token. -/
theorem refresh_token_fallback_witness :
    (parse_token_response 5
        { error := none, access_token := some (.str "tok")
          refresh_token := none, expires_in := some (.int 100) } (some "oldref") =
      .ok { access_token := "tok", refresh_token := "oldref"
            expiry := 5 + (asI64 (some (.int 100))).getD 3600 })
  ∧ parse_token_response 5
      { error := none, access_token := some (.str "tok")
        refresh_token := none, expires_in := some (.int 100) } none =
      .error .missingRefreshToken :=
  ⟨(refresh_token_fallback 5
      { error := none, access_token := some (.str "tok")
        refresh_token := none, expires_in := some (.int 100) } "tok"
      rfl rfl rfl).1 "oldref",
   (refresh_token_fallback 5
      { error := none, access_token := some (.str "tok")
        refresh_token := none, expires_in := some (.int 100) } "tok"
      rfl rfl rfl).2⟩

/-- C8: the staleness predicate holds if and only if the current time has
reached the expiry minus the 60-second safety margin, and it is false at
issuance time for any credential parsed from a token response whose
`expires_in` exceeds 60 (expiry is computed as now + expires_in). -/
theorem staleness_margin (t : Token) (now : Int) :
    (t.is_expired now = true ↔ now ≥ t.expiry - 60)
  ∧ (∀ (resp : TokenResponse) (e : Int) (prev : Option String) (tok : Token),
       asI64 resp.expires_in = some e → 60 < e →
       parse_token_response now resp prev = .ok tok →
       tok.is_expired now = false) := by
  constructor
  · simp [Token.is_expired]
  · intro resp e prev tok he hgt hp
    unfold parse_token_response at hp
    rcases herr : resp.error with _ | ev
    · rw [herr] at hp
      rcases hacc : asStr resp.access_token with _ | a
      · rw [hacc] at hp
        exact Except.noConfusion hp
      · rw [hacc] at hp
        rcases hrf : (asStr resp.refresh_token).orElse (fun _ => prev) with _ | r
        · rw [hrf] at hp
          exact Except.noConfusion hp
        · rw [hrf] at hp
          have htok : tok =
              { access_token := a, refresh_token := r
                expiry := now + (asI64 resp.expires_in).getD 3600 } := by
            injection hp with h2
            exact h2.symm
          rw [htok]
          simp only [Token.is_expired, he, Option.getD_some]
          rw [decide_eq_false_iff_not]
          omega
    · rw [herr] at hp
      exact Except.noConfusion hp

/-- Witness for C8: a credential 60 seconds before its margin, and one
freshly issued with expires_in = 3600. -/
theorem staleness_margin_witness :
    (Token.is_expired { access_token := "a", refresh_token := "r", expiry := 100 } 40 = true ↔
       (40 : Int) ≥ 100 - 60)
  ∧ Token.is_expired
      { access_token := "tok", refresh_token := "rr", expiry := 40 + 3600 } 40 = false :=
  ⟨(staleness_margin { access_token := "a", refresh_token := "r", expiry := 100 } 40).1,
   (staleness_margin
      { access_token := "tok", refresh_token := "rr", expiry := 40 + 3600 } 40).2
     { error := none, access_token := some (.str "tok")
       refresh_token := some (.str "rr"), expires_in := some (.int 3600) }
     3600 none
     { access_token := "tok", refresh_token := "rr", expiry := 40 + 3600 }
     rfl (by decide) rfl⟩

/-- Every branch of a loop iteration uses the same storage key,
`<run-date>/<sanitized-name>`. -/
lemma processFile_s3_key (dateStr : String) (f : DriveFile) (env : FileEnv) :
    (processFile dateStr f env).s3_key = dateStr ++ "/" ++ sanitize f.name := by
  unfold processFile
  split
  · rfl
  · rcases hu : env.uploadOk with _ | _ <;> rcases hd : env.deleteOk with _ | _ <;>
      simp [hu, hd]

/-- The delete call of a loop iteration, when made, targets the file's own
source id. -/
lemma processFile_deleteTarget (dateStr : String) (f : DriveFile) (env : FileEnv) :
    (processFile dateStr f env).deleteTarget = none ∨
    (processFile dateStr f env).deleteTarget = some f.id := by
  unfold processFile
  split
  · exact Or.inl rfl
  · rcases hu : env.uploadOk with _ | _ <;> rcases hd : env.deleteOk with _ | _ <;>
      simp [hu, hd]

/-- C9: sanitization replaces every occurrence of slash, backslash, or the
null character by an underscore and leaves all other characters unchanged;
two files whose names collide only after sanitization are both still
processed — their results appear in order, they share the (predictable)
storage key, and any delete each triggers targets its own distinct source
id, with no crash anywhere. -/
theorem sanitize_and_collision
    (dateStr : String) (f1 f2 : DriveFile) (e1 e2 : FileEnv)
    (hcollide : sanitize f1.name = sanitize f2.name)
    (hids : f1.id ≠ f2.id) :
    (∀ name : String, (sanitize name).data =
       name.data.map
         (fun c => if c = '/' ∨ c = '\\' ∨ c = Char.ofNat 0 then '_' else c))
  ∧ (run dateStr [(f1, e1), (f2, e2)]).2 =
      [processFile dateStr f1 e1, processFile dateStr f2 e2]
  ∧ (processFile dateStr f1 e1).s3_key = (processFile dateStr f2 e2).s3_key
  ∧ (∀ tgt ∈ (processFile dateStr f1 e1).deleteTarget, tgt = f1.id)
  ∧ (∀ tgt ∈ (processFile dateStr f2 e2).deleteTarget, tgt = f2.id)
  ∧ (∀ tgt1 ∈ (processFile dateStr f1 e1).deleteTarget,
       ∀ tgt2 ∈ (processFile dateStr f2 e2).deleteTarget, tgt1 ≠ tgt2) := by
  have hd1 := processFile_deleteTarget dateStr f1 e1
  have hd2 := processFile_deleteTarget dateStr f2 e2
  have hm1 : ∀ tgt ∈ (processFile dateStr f1 e1).deleteTarget, tgt = f1.id := by
    rcases hd1 with h | h <;> rw [h] <;> simp
  have hm2 : ∀ tgt ∈ (processFile dateStr f2 e2).deleteTarget, tgt = f2.id := by
    rcases hd2 with h | h <;> rw [h] <;> simp
  refine ⟨fun _ => rfl, ?_, ?_, hm1, hm2, ?_⟩
  · rw [run, runFrom_snd]
    rfl
  · rw [processFile_s3_key, processFile_s3_key, hcollide]
  · intro tgt1 h1 tgt2 h2
    rw [hm1 tgt1 h1, hm2 tgt2 h2]
    exact hids

/-- Witness for C9: `a/b.jpg` and `a\b.jpg` collide after sanitization yet
both appear in the run's results. -/
theorem sanitize_and_collision_witness :
    (run "2026-10-12"
       [ ({ id := "id1", name := "a/b.jpg", mime_type := "image/jpeg", size := some "3" },
          { dl := { httpErr := false, chunks := [3], streamErr := false }
            uploadOk := true, deleteOk := true })
       , ({ id := "id2", name := "a\\b.jpg", mime_type := "image/jpeg", size := some "3" },
          { dl := { httpErr := false, chunks := [3], streamErr := false }
            uploadOk := true, deleteOk := true }) ]).2 =
      [ processFile "2026-10-12"
          { id := "id1", name := "a/b.jpg", mime_type := "image/jpeg", size := some "3" }
          { dl := { httpErr := false, chunks := [3], streamErr := false }
            uploadOk := true, deleteOk := true }
      , processFile "2026-10-12"
          { id := "id2", name := "a\\b.jpg", mime_type := "image/jpeg", size := some "3" }
          { dl := { httpErr := false, chunks := [3], streamErr := false }
            uploadOk := true, deleteOk := true } ] :=
  (sanitize_and_collision "2026-10-12"
     { id := "id1", name := "a/b.jpg", mime_type := "image/jpeg", size := some "3" }
     { id := "id2", name := "a\\b.jpg", mime_type := "image/jpeg", size := some "3" }
     { dl := { httpErr := false, chunks := [3], streamErr := false }
       uploadOk := true, deleteOk := true }
     { dl := { httpErr := false, chunks := [3], streamErr := false }
       uploadOk := true, deleteOk := true }
     (by decide) (by decide)).2.1

/-- C10: when the reported size is present but does not parse as an
unsigned 64-bit integer, the download performs no byte-count verification:
it behaves exactly as if no size had been reported, succeeding whenever the
stream ends without error regardless of how many bytes arrived. -/
theorem unparseable_size_skips_verification
    (f : DriveFile) (s : String) (env : DownloadEnv)
    (hs : f.size = some s) (hp : parseU64 s = none) :
    download f env = download { f with size := none } env
  ∧ (env.httpErr = false → env.streamErr = false →
       (download f env).res = .ok () ∧ (download f env).dest = some env.chunks.sum) := by
  have hexp : sizeExpected f = none := by
    rw [sizeExpected, hs, Option.bind]
    exact hp
  have hexp2 : sizeExpected { f with size := none } = none := rfl
  constructor
  · rw [download_unfold, download_unfold, hexp, hexp2]
  · intro hh hst
    rw [download_unfold, hexp]
    simp [hh, hst]

/-- Witness for C10: a file whose reported size is the unparseable string
`12a`; a 7-byte download succeeds with no verification. -/
theorem unparseable_size_skips_verification_witness :
    download { id := "id1", name := "x.jpg", mime_type := "image/jpeg", size := some "12a" }
        { httpErr := false, chunks := [7], streamErr := false } =
      download { id := "id1", name := "x.jpg", mime_type := "image/jpeg", size := none }
        { httpErr := false, chunks := [7], streamErr := false }
  ∧ (download { id := "id1", name := "x.jpg", mime_type := "image/jpeg", size := some "12a" }
        { httpErr := false, chunks := [7], streamErr := false }).res = .ok ()
  ∧ (download { id := "id1", name := "x.jpg", mime_type := "image/jpeg", size := some "12a" }
        { httpErr := false, chunks := [7], streamErr := false }).dest =
      some ([7] : List Nat).sum :=
  have h := unparseable_size_skips_verification
    { id := "id1", name := "x.jpg", mime_type := "image/jpeg", size := some "12a" }
    "12a" { httpErr := false, chunks := [7], streamErr := false } rfl (by decide)
  ⟨h.1, (h.2 rfl rfl).1, (h.2 rfl rfl).2⟩

end GPB
